import Mathlib

/-
  Verification of the chat-widget front end in static/src/js/chatbot.js.

  The DOM state touched by the script is modelled shallowly: the chat box is a
  list of entries (message divs and the at-most-one loading-indicator div), and
  the text input is a string.  Class names are kept exactly as the source uses
  them ("user", "bot", "err").  The asynchronous sendMessage function is
  modelled as a trace of primitive events (DOM appends, input clearing, the
  loading guard, the outbound request), so that ordering and interleaving
  properties can be stated; the state transformer is the fold of those events.
-/

namespace Chatbot

/-- A rendered message div: its text and the class name the source passes to
appendMessage ("user", "bot" or "err"). -/
structure Message where
  text : String
  cls : String
deriving DecidableEq

/-- A child of the chat-box container: either a message div or the
loading-indicator div (id "loading-indicator"). -/
inductive Entry where
  | msg (m : Message)
  | loader
deriving DecidableEq

/-- The DOM state the script reads and writes: the chat-box children and the
value of the user-input field. -/
structure ChatState where
  chatBox : List Entry
  inputValue : String
deriving DecidableEq

/-- Whether an entry is the loading-indicator div. -/
def isLoader : Entry → Bool
  | Entry.loader => true
  | Entry.msg _ => false

/-- Number of loading-indicator divs currently in the chat box (the Pending
Request Marker count). -/
def loaderCount (st : ChatState) : Nat :=
  st.chatBox.countP isLoader

/-- Whether getElementById "loading-indicator" finds an element. -/
def hasLoader (st : ChatState) : Bool :=
  st.chatBox.any isLoader

/-- appendMessage from the source: creates a div with the given text and class
and appends it to the chat box. -/
def appendMessage (text cls : String) (st : ChatState) : ChatState :=
  ⟨st.chatBox ++ [Entry.msg ⟨text, cls⟩], st.inputValue⟩

/-- showLoading from the source: if a loading indicator already exists the
call returns without inserting; otherwise it appends one loader div. -/
def showLoading (st : ChatState) : ChatState :=
  if hasLoader st then st
  else ⟨st.chatBox ++ [Entry.loader], st.inputValue⟩

/-- Removal of the first loader entry, as loader.remove() does to the element
returned by getElementById; a list with no loader is returned unchanged. -/
def removeFirstLoader : List Entry → List Entry
  | [] => []
  | e :: rest => if isLoader e then rest else e :: removeFirstLoader rest

/-- hideLoading from the source: looks the indicator up and removes it when
present; does nothing when absent. -/
def hideLoading (st : ChatState) : ChatState :=
  ⟨removeFirstLoader st.chatBox, st.inputValue⟩

/-- JavaScript String.prototype.trim, modelled on the character list: strip
leading and trailing whitespace. -/
def jsTrim (s : String) : String :=
  String.mk (((s.toList.dropWhile Char.isWhitespace).reverse.dropWhile
    Char.isWhitespace).reverse)

/-- JavaScript truthiness of an optional string field: absent (null or
undefined) and the empty string are falsy. -/
def truthyStr : Option String → Bool
  | none => false
  | some s => s != ""

/-- The result object of a parsed response body, with its optional reply and
error fields. -/
structure RpcResult where
  reply : Option String
  error : Option String
deriving DecidableEq

/-- The top-level error object of a parsed response body. -/
structure RpcError where
  message : String
deriving DecidableEq

/-- A parsed response body: optional result object and optional top-level
error object.  Option models JavaScript truthiness of the objects. -/
structure Response where
  result : Option RpcResult
  error : Option RpcError
deriving DecidableEq

/-- The outcome of the fetch exchange: the response parsed successfully, the
fetch itself threw (network failure), or res.json() threw (non-JSON body).
Each failure carries the message of the thrown error. -/
inductive FetchOutcome where
  | ok (resp : Response)
  | fetchFail (message : String)
  | jsonFail (message : String)
deriving DecidableEq

/-- The cascade in sendMessage that turns a parsed response into the message
appended to the chat box, following the source branch for branch. -/
def interpretResponse (data : Response) : Message :=
  match data.result with
  | some r =>
      if truthyStr r.reply then ⟨r.reply.getD "", "bot"⟩
      else if truthyStr r.error then ⟨"Error: " ++ r.error.getD "", "err"⟩
      else ⟨"Error: Unexpected response format", "err"⟩
  | none =>
      match data.error with
      | some e => ⟨"Error: " ++ e.message, "err"⟩
      | none => ⟨"Error: Could not get response", "err"⟩

/-- The primitive observable steps sendMessage performs, in order. -/
inductive Event where
  | append (text cls : String)
  | clearInput
  | showLoad
  | hideLoad
  | request (message : String)
deriving DecidableEq

/-- Effect of one primitive step on the DOM state. -/
def applyEvent (st : ChatState) : Event → ChatState
  | Event.append t c => appendMessage t c st
  | Event.clearInput => ⟨st.chatBox, ""⟩
  | Event.showLoad => showLoading st
  | Event.hideLoad => hideLoading st
  | Event.request _ => st

/-- State after a sequence of primitive steps. -/
def runTrace (events : List Event) (st : ChatState) : ChatState :=
  events.foldl applyEvent st

/-- The message sendMessage resolves: manualMsg when truthy, otherwise the
trimmed input-field value (manualMsg || userInput.value.trim()). -/
def resolveMessage (manualMsg : Option String) (inputVal : String) : String :=
  match manualMsg with
  | some s => if s = "" then jsTrim inputVal else s
  | none => jsTrim inputVal

/-- Steps before the await point: append the user message, clear the input
when the text did not come from a truthy manualMsg, show the loader, issue the
request. -/
def sendPre (manualMsg : Option String) (message : String) : List Event :=
  [Event.append message "user"]
    ++ (if truthyStr manualMsg then [] else [Event.clearInput])
    ++ [Event.showLoad, Event.request message]

/-- Steps after the exchange settles.  On a parsed response: hide the loader,
then append the interpreted message.  When fetch throws: the catch block hides
the loader and appends the error.  When res.json() throws: hideLoading has
already run after the fetch, and the catch block runs it a second time before
appending the error. -/
def sendPost (outcome : FetchOutcome) : List Event :=
  match outcome with
  | FetchOutcome.ok resp =>
      [Event.hideLoad,
       Event.append (interpretResponse resp).text (interpretResponse resp).cls]
  | FetchOutcome.fetchFail e => [Event.hideLoad, Event.append ("Error: " ++ e) "err"]
  | FetchOutcome.jsonFail e =>
      [Event.hideLoad, Event.hideLoad, Event.append ("Error: " ++ e) "err"]

/-- Full event trace of one sendMessage call: empty when the resolved message
is empty, otherwise the pre-await steps followed by the post-await steps. -/
def sendMessageTrace (manualMsg : Option String) (inputVal : String)
    (outcome : FetchOutcome) : List Event :=
  if resolveMessage manualMsg inputVal = "" then []
  else sendPre manualMsg (resolveMessage manualMsg inputVal) ++ sendPost outcome

/-- sendMessage as a state transformer, reading the input field from the
state. -/
def sendMessage (manualMsg : Option String) (outcome : FetchOutcome)
    (st : ChatState) : ChatState :=
  runTrace (sendMessageTrace manualMsg st.inputValue outcome) st

/-- Whether an event is the outbound request. -/
def isRequest : Event → Bool
  | Event.request _ => true
  | _ => false

/-- Number of request events in a trace (outbound network calls). -/
def requestsSent (events : List Event) : Nat :=
  events.countP isRequest

/-- Whether an event appends a div with the given class name. -/
def isAppendWithCls (cls : String) : Event → Bool
  | Event.append _ c => c == cls
  | _ => false

/-- Whether an event appends any message div. -/
def isAppend : Event → Bool
  | Event.append _ _ => true
  | _ => false

/-- Number of user-role messages a trace appends. -/
def userAppendCount (events : List Event) : Nat :=
  events.countP (isAppendWithCls "user")

/-- Number of bot-role or error-role messages a trace appends. -/
def resultAppendCount (events : List Event) : Nat :=
  events.countP (fun e => isAppendWithCls "bot" e || isAppendWithCls "err" e)

/-- Number of messages a trace appends. -/
def appendCount (events : List Event) : Nat :=
  events.countP isAppend

/-- The message the settled exchange appends, for every outcome. -/
def resultMessage : FetchOutcome → Message
  | FetchOutcome.ok resp => interpretResponse resp
  | FetchOutcome.fetchFail e => ⟨"Error: " ++ e, "err"⟩
  | FetchOutcome.jsonFail e => ⟨"Error: " ++ e, "err"⟩

/-- The welcome message appended when initialization finds its elements. -/
def greetingMessage : Message :=
  ⟨"Hello! I\u0027m Dragon Chat. How can I assist you today?", "bot"⟩

/-- The greeting re-seeded by the clear-chat listener. -/
def clearGreeting : Message :=
  ⟨"Chat cleared. How can I help you?", "bot"⟩

/-- The clear-chat click listener: when the confirm dialog is accepted, set
chatBox.innerHTML to empty and append the clear greeting; when declined, do
nothing. -/
def clearChat (confirmed : Bool) (st : ChatState) : ChatState :=
  if confirmed then ⟨[Entry.msg clearGreeting], st.inputValue⟩
  else st

/-- The DOMContentLoaded handler: when the chat box or the input field is
missing it returns before touching anything; otherwise it attaches the
listeners (the returned flag) and appends the welcome message. -/
def initController (hasChatBox hasUserInput : Bool) (st : ChatState) :
    ChatState × Bool :=
  if hasChatBox && hasUserInput then
    (appendMessage greetingMessage.text greetingMessage.cls st, true)
  else (st, false)

/-- Unfolding runTrace over an appended trace. -/
lemma runTrace_append (a b : List Event) (st : ChatState) :
    runTrace (a ++ b) st = runTrace b (runTrace a st) := by
  simp [runTrace, List.foldl_append]

/-- Unfolding runTrace over a cons. -/
lemma runTrace_cons (e : Event) (rest : List Event) (st : ChatState) :
    runTrace (e :: rest) st = runTrace rest (applyEvent st e) := rfl

/-- Appending a message div leaves the loader count unchanged. -/
lemma loaderCount_appendMessage (t c : String) (st : ChatState) :
    loaderCount (appendMessage t c st) = loaderCount st := by
  simp [loaderCount, appendMessage, List.countP_append, List.countP_cons, isLoader]

/-- getElementById finds no loader exactly when the loader count is zero. -/
lemma hasLoader_false_iff (st : ChatState) :
    hasLoader st = false ↔ loaderCount st = 0 := by
  simp [hasLoader, loaderCount, List.any_eq_false, List.countP_eq_zero]

/-- getElementById finds a loader exactly when the loader count is nonzero. -/
lemma hasLoader_true_iff (st : ChatState) :
    hasLoader st = true ↔ loaderCount st ≠ 0 := by
  rw [← Bool.not_eq_false, not_iff_not.symm]
  simpa using hasLoader_false_iff st

/-- showLoading on a state with no loader yields exactly one loader. -/
lemma loaderCount_showLoading_of_zero (st : ChatState)
    (h : loaderCount st = 0) : loaderCount (showLoading st) = 1 := by
  have hl : hasLoader st = false := (hasLoader_false_iff st).mpr h
  simp only [loaderCount] at h
  simp [showLoading, hl, loaderCount, List.countP_append, List.countP_cons,
    isLoader, h]

/-- showLoading is the identity when the loader is already showing. -/
lemma showLoading_of_hasLoader (st : ChatState) (h : hasLoader st = true) :
    showLoading st = st := by
  simp [showLoading, h]

/-- Starting from at most one loader, showLoading leaves exactly one. -/
lemma loaderCount_showLoading_of_le_one (st : ChatState)
    (h : loaderCount st ≤ 1) : loaderCount (showLoading st) = 1 := by
  rcases Nat.eq_zero_or_pos (loaderCount st) with h0 | hp
  · exact loaderCount_showLoading_of_zero st h0
  · have h1 : loaderCount st = 1 := le_antisymm h hp
    have hl : hasLoader st = true := (hasLoader_true_iff st).mpr (by omega)
    rw [showLoading_of_hasLoader st hl, h1]

/-- Removing the first loader decrements the loader count (saturating). -/
lemma countP_removeFirstLoader (l : List Entry) :
    (removeFirstLoader l).countP isLoader = l.countP isLoader - 1 := by
  induction l with
  | nil => simp [removeFirstLoader]
  | cons e rest ih =>
      cases he : isLoader e with
      | true => simp [removeFirstLoader, he, List.countP_cons]
      | false => simp [removeFirstLoader, he, List.countP_cons, ih]

/-- hideLoading decrements the loader count (saturating at zero). -/
lemma loaderCount_hideLoading (st : ChatState) :
    loaderCount (hideLoading st) = loaderCount st - 1 := by
  simp [loaderCount, hideLoading, countP_removeFirstLoader]

/-- A list with no loader is unchanged by the removal pass. -/
lemma removeFirstLoader_of_zero (l : List Entry)
    (h : l.countP isLoader = 0) : removeFirstLoader l = l := by
  induction l with
  | nil => rfl
  | cons e rest ih =>
      cases he : isLoader e with
      | true => simp [List.countP_cons, he] at h
      | false =>
          rw [List.countP_cons, he] at h
          simp only [Bool.false_eq_true, if_false, Nat.add_zero] at h
          simp [removeFirstLoader, he, ih h]

/-- hideLoading on a state with no loader is the identity (removing an
absent marker does nothing). -/
lemma hideLoading_of_zero (st : ChatState) (h : loaderCount st = 0) :
    hideLoading st = st := by
  simp only [hideLoading, removeFirstLoader_of_zero st.chatBox h]

/-- showLoading never touches the input field. -/
lemma inputValue_showLoading (st : ChatState) :
    (showLoading st).inputValue = st.inputValue := by
  unfold showLoading
  split <;> rfl

/-- Every primitive step except clearInput leaves the input field alone. -/
lemma inputValue_applyEvent (st : ChatState) (e : Event)
    (h : e ≠ Event.clearInput) :
    (applyEvent st e).inputValue = st.inputValue := by
  cases e with
  | append t c => rfl
  | clearInput => exact absurd rfl h
  | showLoad => exact inputValue_showLoading st
  | hideLoad => rfl
  | request m => rfl

/-- A trace without clearInput leaves the input field alone. -/
lemma inputValue_runTrace (events : List Event) (st : ChatState)
    (h : Event.clearInput ∉ events) :
    (runTrace events st).inputValue = st.inputValue := by
  induction events generalizing st with
  | nil => rfl
  | cons e rest ih =>
      rw [List.mem_cons, not_or] at h
      rw [runTrace_cons, ih _ h.2,
        inputValue_applyEvent st e (fun he => h.1 he.symm)]

/-- Each primitive step preserves the at-most-one-loader invariant. -/
lemma loaderCount_applyEvent_le (st : ChatState) (e : Event)
    (h : loaderCount st ≤ 1) : loaderCount (applyEvent st e) ≤ 1 := by
  cases e with
  | append t c => simpa [applyEvent, loaderCount_appendMessage] using h
  | clearInput => simpa [applyEvent, loaderCount] using h
  | showLoad =>
      simp only [applyEvent]
      exact (loaderCount_showLoading_of_le_one st h).le
  | hideLoad =>
      simp only [applyEvent]
      rw [loaderCount_hideLoading]
      omega
  | request m => simpa [applyEvent] using h

/-- Every trace of primitive steps preserves the at-most-one-loader
invariant. -/
lemma loaderCount_runTrace_le (events : List Event) (st : ChatState)
    (h : loaderCount st ≤ 1) : loaderCount (runTrace events st) ≤ 1 := by
  induction events generalizing st with
  | nil => exact h
  | cons e rest ih => exact ih _ (loaderCount_applyEvent_le st e h)

/-- After the pre-await steps of a send, exactly one loader is showing. -/
lemma loaderCount_runTrace_sendPre (manual : Option String) (m : String)
    (st : ChatState) (h : loaderCount st ≤ 1) :
    loaderCount (runTrace (sendPre manual m) st) = 1 := by
  cases ht : truthyStr manual with
  | true =>
      simp only [sendPre, ht, if_true, List.nil_append, List.cons_append,
        List.singleton_append]
      show loaderCount (showLoading (appendMessage m "user" st)) = 1
      exact loaderCount_showLoading_of_le_one _
        (by rwa [loaderCount_appendMessage])
  | false =>
      simp only [sendPre, ht, Bool.false_eq_true, if_false, List.nil_append,
        List.cons_append, List.singleton_append]
      show loaderCount
        (showLoading ⟨(appendMessage m "user" st).chatBox, ""⟩) = 1
      apply loaderCount_showLoading_of_le_one
      simpa [loaderCount, appendMessage, List.countP_append, List.countP_cons,
        isLoader] using h

/-- After the post-await steps of a send, no loader remains (whatever the
outcome), provided the invariant held before. -/
lemma loaderCount_runTrace_sendPost (o : FetchOutcome) (st : ChatState)
    (h : loaderCount st ≤ 1) :
    loaderCount (runTrace (sendPost o) st) = 0 := by
  cases o with
  | ok resp =>
      show loaderCount (appendMessage _ _ (hideLoading st)) = 0
      rw [loaderCount_appendMessage, loaderCount_hideLoading]
      omega
  | fetchFail e =>
      show loaderCount (appendMessage _ _ (hideLoading st)) = 0
      rw [loaderCount_appendMessage, loaderCount_hideLoading]
      omega
  | jsonFail e =>
      show loaderCount (appendMessage _ _ (hideLoading (hideLoading st))) = 0
      rw [loaderCount_appendMessage, loaderCount_hideLoading,
        loaderCount_hideLoading]
      omega

/-- The last chat-box entry after appending one message div. -/
lemma getLast_append_one (l : List Entry) (e : Entry) :
    (l ++ [e]).getLast? = some e := by
  simp [List.getLast?_concat]

/-- After a non-empty send settles, the last chat-box entry is the message
determined by the outcome. -/
lemma sendMessage_getLast (manual : Option String) (outcome : FetchOutcome)
    (st : ChatState) (h : resolveMessage manual st.inputValue ≠ "") :
    (sendMessage manual outcome st).chatBox.getLast? =
      some (Entry.msg (resultMessage outcome)) := by
  unfold sendMessage sendMessageTrace
  rw [if_neg h, runTrace_append]
  cases outcome with
  | ok resp => exact getLast_append_one _ _
  | fetchFail e => exact getLast_append_one _ _
  | jsonFail e => exact getLast_append_one _ _

/-- After a non-empty send settles, no loader remains, provided the
invariant held before. -/
lemma sendMessage_loaderCount (manual : Option String)
    (outcome : FetchOutcome) (st : ChatState)
    (h : resolveMessage manual st.inputValue ≠ "")
    (hinv : loaderCount st ≤ 1) :
    loaderCount (sendMessage manual outcome st) = 0 := by
  unfold sendMessage sendMessageTrace
  rw [if_neg h, runTrace_append]
  exact loaderCount_runTrace_sendPost outcome _
    (loaderCount_runTrace_sendPre manual _ st hinv).le

/-- The interpreted message always carries the bot or the err class. -/
lemma interpretResponse_cls (resp : Response) :
    (interpretResponse resp).cls = "bot" ∨
      (interpretResponse resp).cls = "err" := by
  obtain ⟨res, err⟩ := resp
  cases res with
  | some r =>
      by_cases h1 : truthyStr r.reply = true
      · simp [interpretResponse, h1]
      · by_cases h2 : truthyStr r.error = true <;>
          simp [interpretResponse, h1, h2]
  | none => cases err <;> simp [interpretResponse]

/-- The post-await steps append no user-role message. -/
lemma userAppendCount_sendPost (o : FetchOutcome) :
    userAppendCount (sendPost o) = 0 := by
  cases o with
  | ok resp =>
      rcases interpretResponse_cls resp with hc | hc <;>
        simp [userAppendCount, sendPost, List.countP_cons, isAppendWithCls, hc]
  | fetchFail e => simp [userAppendCount, sendPost, List.countP_cons, isAppendWithCls]
  | jsonFail e => simp [userAppendCount, sendPost, List.countP_cons, isAppendWithCls]

/-- The post-await steps append exactly one bot-role or err-role message. -/
lemma resultAppendCount_sendPost (o : FetchOutcome) :
    resultAppendCount (sendPost o) = 1 := by
  cases o with
  | ok resp =>
      rcases interpretResponse_cls resp with hc | hc <;>
        simp [resultAppendCount, sendPost, List.countP_cons, isAppendWithCls, hc]
  | fetchFail e => simp [resultAppendCount, sendPost, List.countP_cons, isAppendWithCls]
  | jsonFail e => simp [resultAppendCount, sendPost, List.countP_cons, isAppendWithCls]

/-- The post-await steps issue no further request. -/
lemma countP_isRequest_sendPost (o : FetchOutcome) :
    (sendPost o).countP isRequest = 0 := by
  cases o <;> simp [sendPost, List.countP_cons, isRequest]

/-- The post-await steps append exactly one message in total. -/
lemma appendCount_sendPost (o : FetchOutcome) :
    appendCount (sendPost o) = 1 := by
  cases o <;> simp [appendCount, sendPost, List.countP_cons, isAppend]

/-- C1 (amended): for every response whose result object carries a non-empty
reply field, the message a non-empty send appends is role bot with text equal
to that reply value; the spec example response with reply "Hi" instantiates
it.  The original claim, keyed on mere presence of the reply field, fails at
reply = "" because the source tests JavaScript truthiness. -/
theorem c1_reply_appends_bot (resp : Response) (r : RpcResult) (s : String)
    (manual : Option String) (st : ChatState)
    (hr : resp.result = some r) (hs : r.reply = some s) (hne : s ≠ "")
    (hmsg : resolveMessage manual st.inputValue ≠ "") :
    (sendMessage manual (FetchOutcome.ok resp) st).chatBox.getLast? =
      some (Entry.msg ⟨s, "bot"⟩) := by
  have h1 : interpretResponse resp = ⟨s, "bot"⟩ := by
    unfold interpretResponse
    rw [hr]
    simp [hs, truthyStr, hne]
  rw [sendMessage_getLast manual (FetchOutcome.ok resp) st hmsg]
  show some (Entry.msg (interpretResponse resp)) = _
  rw [h1]

/-- Witness for C1 at the response of the spec example. -/
theorem c1_reply_appends_bot_witness :
    (sendMessage (some "hello")
        (FetchOutcome.ok ⟨some ⟨some "Hi", none⟩, none⟩)
        ⟨[], ""⟩).chatBox.getLast? = some (Entry.msg ⟨"Hi", "bot"⟩) :=
  c1_reply_appends_bot ⟨some ⟨some "Hi", none⟩, none⟩ ⟨some "Hi", none⟩ "Hi"
    (some "hello") ⟨[], ""⟩ rfl rfl (by decide) (by decide)

/-- C1 counterexample: a response whose result object has a reply field whose
value is the empty string is rendered as the generic unexpected-format error,
not as a bot message carrying the reply value. -/
theorem c1_counterexample :
    (sendMessage (some "hi") (FetchOutcome.ok ⟨some ⟨some "", none⟩, none⟩)
        ⟨[], ""⟩).chatBox.getLast? =
      some (Entry.msg ⟨"Error: Unexpected response format", "err"⟩)
    ∧ (sendMessage (some "hi") (FetchOutcome.ok ⟨some ⟨some "", none⟩, none⟩)
        ⟨[], ""⟩).chatBox.getLast? ≠ some (Entry.msg ⟨"", "bot"⟩) := by
  decide

/-- C2 (amended): after the reply tier, precedence is: a non-empty
result.error renders "Error: " + error; a result object with neither a
non-empty reply nor a non-empty error renders the unexpected-format generic;
no result but a top-level error renders "Error: " + error.message; neither
renders the could-not-get-response generic; and the two generic texts are
distinct.  The original claim, keyed on mere presence of the error field,
fails when result.error is the empty string. -/
theorem c2_error_precedence (resp : Response) (manual : Option String)
    (st : ChatState) (hmsg : resolveMessage manual st.inputValue ≠ "") :
    (∀ r, resp.result = some r → truthyStr r.reply = false →
      ((truthyStr r.error = true →
          (sendMessage manual (FetchOutcome.ok resp) st).chatBox.getLast? =
            some (Entry.msg ⟨"Error: " ++ r.error.getD "", "err"⟩))
       ∧ (truthyStr r.error = false →
          (sendMessage manual (FetchOutcome.ok resp) st).chatBox.getLast? =
            some (Entry.msg ⟨"Error: Unexpected response format", "err"⟩))))
    ∧ (resp.result = none → ∀ e, resp.error = some e →
        (sendMessage manual (FetchOutcome.ok resp) st).chatBox.getLast? =
          some (Entry.msg ⟨"Error: " ++ e.message, "err"⟩))
    ∧ (resp.result = none → resp.error = none →
        (sendMessage manual (FetchOutcome.ok resp) st).chatBox.getLast? =
          some (Entry.msg ⟨"Error: Could not get response", "err"⟩))
    ∧ ("Error: Unexpected response format" : String) ≠
        "Error: Could not get response" := by
  have hlast := sendMessage_getLast manual (FetchOutcome.ok resp) st hmsg
  refine ⟨?_, ?_, ?_, by decide⟩
  · intro r hr hrep
    constructor
    · intro herr
      rw [hlast]
      show some (Entry.msg (interpretResponse resp)) = _
      unfold interpretResponse
      rw [hr]
      simp [hrep, herr]
    · intro herr
      rw [hlast]
      show some (Entry.msg (interpretResponse resp)) = _
      unfold interpretResponse
      rw [hr]
      simp [hrep, herr]
  · intro hr e he
    rw [hlast]
    show some (Entry.msg (interpretResponse resp)) = _
    unfold interpretResponse
    rw [hr, he]
  · intro hr he
    rw [hlast]
    show some (Entry.msg (interpretResponse resp)) = _
    unfold interpretResponse
    rw [hr, he]

/-- Witness for C2 at the result-error response of the spec example. -/
theorem c2_error_precedence_witness :
    (sendMessage (some "hi")
        (FetchOutcome.ok ⟨some ⟨none, some "bad input"⟩, none⟩)
        ⟨[], ""⟩).chatBox.getLast? =
      some (Entry.msg ⟨"Error: bad input", "err"⟩) :=
  ((c2_error_precedence ⟨some ⟨none, some "bad input"⟩, none⟩ (some "hi")
      ⟨[], ""⟩ (by decide)).1 ⟨none, some "bad input"⟩ rfl rfl).1 (by decide)

/-- C2 counterexample: a response whose result object has an error field
whose value is the empty string is rendered as the generic unexpected-format
error, not as "Error: " followed by that empty error value. -/
theorem c2_counterexample :
    (sendMessage (some "hi") (FetchOutcome.ok ⟨some ⟨none, some ""⟩, none⟩)
        ⟨[], ""⟩).chatBox.getLast? =
      some (Entry.msg ⟨"Error: Unexpected response format", "err"⟩)
    ∧ (sendMessage (some "hi") (FetchOutcome.ok ⟨some ⟨none, some ""⟩, none⟩)
        ⟨[], ""⟩).chatBox.getLast? ≠
      some (Entry.msg ⟨"Error: ", "err"⟩) := by
  decide

/-- C3: a transport failure with description d (fetch rejection or JSON
parse failure) is caught, appends exactly one settled-exchange message, the
err-role message "Error: " + d, and leaves no loader; moreover after any
completed exchange, success or failure, no loader remains. -/
theorem c3_transport_failure (d : String) (manual : Option String)
    (st : ChatState) (hmsg : resolveMessage manual st.inputValue ≠ "")
    (hinv : loaderCount st ≤ 1) :
    (∀ outcome, outcome = FetchOutcome.fetchFail d ∨
        outcome = FetchOutcome.jsonFail d →
      appendCount (sendPost outcome) = 1
      ∧ (sendMessage manual outcome st).chatBox.getLast? =
          some (Entry.msg ⟨"Error: " ++ d, "err"⟩)
      ∧ loaderCount (sendMessage manual outcome st) = 0)
    ∧ (∀ outcome, loaderCount (sendMessage manual outcome st) = 0) := by
  constructor
  · rintro outcome (rfl | rfl)
    · exact ⟨appendCount_sendPost _, sendMessage_getLast manual _ st hmsg,
        sendMessage_loaderCount manual _ st hmsg hinv⟩
    · exact ⟨appendCount_sendPost _, sendMessage_getLast manual _ st hmsg,
        sendMessage_loaderCount manual _ st hmsg hinv⟩
  · intro outcome
    exact sendMessage_loaderCount manual outcome st hmsg hinv

/-- Witness for C3 at the timeout example of the spec. -/
theorem c3_transport_failure_witness :
    appendCount (sendPost (FetchOutcome.fetchFail "timeout")) = 1
    ∧ (sendMessage (some "hi") (FetchOutcome.fetchFail "timeout")
        ⟨[], ""⟩).chatBox.getLast? =
        some (Entry.msg ⟨"Error: timeout", "err"⟩)
    ∧ loaderCount (sendMessage (some "hi")
        (FetchOutcome.fetchFail "timeout") ⟨[], ""⟩) = 0 :=
  (c3_transport_failure "timeout" (some "hi") ⟨[], ""⟩ (by decide)
      (by decide)).1 (FetchOutcome.fetchFail "timeout") (Or.inl rfl)

/-- C4: every sequence of the primitive steps the script performs preserves
the at-most-one-loader invariant, so at every observation point of every
interleaving of sends the Pending Request Marker count is 0 or 1; and
showLoading with a marker already showing inserts nothing. -/
theorem c4_marker_invariant :
    (∀ (events : List Event) (st : ChatState), loaderCount st ≤ 1 →
        loaderCount (runTrace events st) ≤ 1)
    ∧ (∀ st : ChatState, hasLoader st = true → showLoading st = st) :=
  ⟨loaderCount_runTrace_le, showLoading_of_hasLoader⟩

/-- Witness for C4: a double showLoading from the empty log, and idempotent
showLoading on a log already holding the loader. -/
theorem c4_marker_invariant_witness :
    loaderCount (runTrace [Event.showLoad, Event.showLoad] ⟨[], ""⟩) ≤ 1
    ∧ showLoading ⟨[Entry.loader], ""⟩ = ⟨[Entry.loader], ""⟩ :=
  ⟨c4_marker_invariant.1 [Event.showLoad, Event.showLoad] ⟨[], ""⟩ (by decide),
   c4_marker_invariant.2 ⟨[Entry.loader], ""⟩ (by decide)⟩

/-- C5: a non-empty send issues exactly one request, appends exactly one
user message, all of it strictly before the request event, and appends
exactly one bot-role or err-role message, strictly after the exchange
settles, whatever the outcome. -/
theorem c5_one_user_one_result (manual : Option String) (inputVal : String)
    (outcome : FetchOutcome)
    (hmsg : resolveMessage manual inputVal ≠ "") :
    ∃ a b : List Event,
      sendMessageTrace manual inputVal outcome =
        a ++ Event.request (resolveMessage manual inputVal) :: b
      ∧ userAppendCount a = 1 ∧ resultAppendCount a = 0
      ∧ userAppendCount b = 0 ∧ resultAppendCount b = 1
      ∧ requestsSent (sendMessageTrace manual inputVal outcome) = 1 := by
  refine ⟨Event.append (resolveMessage manual inputVal) "user" ::
      ((if truthyStr manual then [] else [Event.clearInput]) ++
        [Event.showLoad]),
    sendPost outcome, ?_, ?_, ?_, userAppendCount_sendPost outcome,
    resultAppendCount_sendPost outcome, ?_⟩
  · unfold sendMessageTrace sendPre
    rw [if_neg hmsg]
    cases ht : truthyStr manual <;> simp [ht]
  · cases ht : truthyStr manual <;>
      simp [userAppendCount, List.countP_cons, List.countP_append,
        isAppendWithCls, ht]
  · cases ht : truthyStr manual <;>
      simp [resultAppendCount, List.countP_cons, List.countP_append,
        isAppendWithCls, ht]
  · unfold sendMessageTrace sendPre
    rw [if_neg hmsg]
    cases ht : truthyStr manual <;>
      simp [requestsSent, List.countP_append, List.countP_cons, ht,
        isRequest, countP_isRequest_sendPost outcome]

/-- Witness for C5 at a concrete quick-reply send with a failing exchange. -/
theorem c5_one_user_one_result_witness :
    ∃ a b : List Event,
      sendMessageTrace (some "hi") "" (FetchOutcome.fetchFail "x") =
        a ++ Event.request (resolveMessage (some "hi") "") :: b
      ∧ userAppendCount a = 1 ∧ resultAppendCount a = 0
      ∧ userAppendCount b = 0 ∧ resultAppendCount b = 1
      ∧ requestsSent (sendMessageTrace (some "hi") ""
          (FetchOutcome.fetchFail "x")) = 1 :=
  c5_one_user_one_result (some "hi") "" (FetchOutcome.fetchFail "x")
    (by decide)

/-- C6: when manualMsg is falsy and the trimmed input-field value is empty,
the send is a no-op: empty trace, zero messages appended, zero requests
issued, state (log, marker, input) unchanged. -/
theorem c6_empty_input_noop (manual : Option String) (outcome : FetchOutcome)
    (st : ChatState) (hm : truthyStr manual = false)
    (ht : jsTrim st.inputValue = "") :
    sendMessageTrace manual st.inputValue outcome = []
    ∧ appendCount (sendMessageTrace manual st.inputValue outcome) = 0
    ∧ requestsSent (sendMessageTrace manual st.inputValue outcome) = 0
    ∧ sendMessage manual outcome st = st := by
  have hres : resolveMessage manual st.inputValue = "" := by
    cases manual with
    | none => exact ht
    | some s =>
        have hs : s = "" := by
          simpa [truthyStr] using hm
        simp [resolveMessage, hs, ht]
  have htr : sendMessageTrace manual st.inputValue outcome = [] := by
    unfold sendMessageTrace
    rw [if_pos hres]
  refine ⟨htr, by rw [htr]; rfl, by rw [htr]; rfl, ?_⟩
  unfold sendMessage
  rw [htr]
  rfl

/-- Witness for C6 with a null manualMsg and a whitespace-only input. -/
theorem c6_empty_input_noop_witness :
    sendMessageTrace none "   " (FetchOutcome.fetchFail "x") = []
    ∧ appendCount (sendMessageTrace none "   " (FetchOutcome.fetchFail "x"))
        = 0
    ∧ requestsSent (sendMessageTrace none "   " (FetchOutcome.fetchFail "x"))
        = 0
    ∧ sendMessage none (FetchOutcome.fetchFail "x") ⟨[], "   "⟩ =
        ⟨[], "   "⟩ :=
  c6_empty_input_noop none (FetchOutcome.fetchFail "x") ⟨[], "   "⟩
    (by decide) (by decide)

/-- C7: a declined clear leaves the state unchanged; an accepted clear
leaves the log holding exactly one message, the bot-role clear greeting. -/
theorem c7_clear_chat (st : ChatState) :
    clearChat false st = st
    ∧ (clearChat true st).chatBox = [Entry.msg clearGreeting]
    ∧ clearGreeting.cls = "bot" :=
  ⟨rfl, rfl, rfl⟩

/-- C8 (amended): a quick reply whose data-msg text is non-empty sends
exactly that text, its whole trace is independent of the input-field value,
and it leaves the input-field value unchanged; the input field is cleared
exactly on a send whose text came from the input field.  The original claim
fails for a quick reply carrying the empty string as its fixed text. -/
theorem c8_quick_reply (s : String) (outcome : FetchOutcome) (st : ChatState)
    (hs : s ≠ "") :
    resolveMessage (some s) st.inputValue = s
    ∧ (∀ v w : String, sendMessageTrace (some s) v outcome =
        sendMessageTrace (some s) w outcome)
    ∧ (sendMessage (some s) outcome st).inputValue = st.inputValue
    ∧ (jsTrim st.inputValue ≠ "" →
        (sendMessage none outcome st).inputValue = "") := by
  have hres : ∀ v, resolveMessage (some s) v = s := by
    intro v
    simp [resolveMessage, hs]
  refine ⟨hres st.inputValue, ?_, ?_, ?_⟩
  · intro v w
    unfold sendMessageTrace
    rw [hres v, hres w]
  · have hnc : Event.clearInput ∉
        sendMessageTrace (some s) st.inputValue outcome := by
      unfold sendMessageTrace sendPre
      rw [hres st.inputValue, if_neg hs]
      have htr : truthyStr (some s) = true := by
        simpa [truthyStr] using hs
      rw [htr]
      cases outcome <;> simp [sendPost]
    unfold sendMessage
    exact inputValue_runTrace _ st hnc
  · intro hne
    unfold sendMessage sendMessageTrace
    have hrn : resolveMessage none st.inputValue = jsTrim st.inputValue := rfl
    rw [hrn, if_neg hne, runTrace_append]
    have h2 : Event.clearInput ∉ sendPost outcome := by
      cases outcome <;> simp [sendPost]
    rw [inputValue_runTrace _ _ h2]
    show (showLoading ⟨(appendMessage (jsTrim st.inputValue) "user"
      st).chatBox, ""⟩).inputValue = ""
    rw [inputValue_showLoading]

/-- Witness for C8 at a fixed quick-reply text and a drafted input value. -/
theorem c8_quick_reply_witness :
    resolveMessage (some "Track my order") "draft" = "Track my order"
    ∧ (∀ v w : String,
        sendMessageTrace (some "Track my order") v
            (FetchOutcome.fetchFail "x") =
          sendMessageTrace (some "Track my order") w
            (FetchOutcome.fetchFail "x"))
    ∧ (sendMessage (some "Track my order") (FetchOutcome.fetchFail "x")
        ⟨[], "draft"⟩).inputValue = "draft"
    ∧ (jsTrim "draft" ≠ "" →
        (sendMessage none (FetchOutcome.fetchFail "x")
          ⟨[], "draft"⟩).inputValue = "") :=
  c8_quick_reply "Track my order" (FetchOutcome.fetchFail "x")
    ⟨[], "draft"⟩ (by decide)

/-- C8 counterexample: a quick reply whose fixed data-msg text is the empty
string falls back to the input field: it sends the trimmed input-field text,
not its own fixed text, and clears the input field. -/
theorem c8_counterexample :
    resolveMessage (some "") "  help  " = "help"
    ∧ sendMessageTrace (some "") "  help  " (FetchOutcome.fetchFail "x") =
        [Event.append "help" "user", Event.clearInput, Event.showLoad,
         Event.request "help", Event.hideLoad,
         Event.append "Error: x" "err"]
    ∧ (sendMessage (some "") (FetchOutcome.fetchFail "x")
        ⟨[], "  help  "⟩).inputValue = "" := by
  decide

/-- C9: when the chat box or the input field is missing from the page,
initialization returns the state unchanged with nothing attached; in
particular no greeting message is appended. -/
theorem c9_init_missing_surface (hasChatBox hasUserInput : Bool)
    (st : ChatState) (h : hasChatBox = false ∨ hasUserInput = false) :
    initController hasChatBox hasUserInput st = (st, false) := by
  rcases h with h | h <;> simp [initController, h]

/-- Witness for C9 on a page without the chat box. -/
theorem c9_init_missing_surface_witness :
    initController false true ⟨[], ""⟩ = (⟨[], ""⟩, false) :=
  c9_init_missing_surface false true ⟨[], ""⟩ (Or.inl rfl)

/-- C10: two overlapping non-empty sends decompose into their pre-await and
post-await phases and share the single loader: after both pre phases exactly
one loader shows; the first completion removes it, so none shows while the
second request is outstanding; hideLoading on that loaderless state is a
harmless no-op; and after the second completion the count is still zero. -/
theorem c10_overlapping_sends (m1 m2 : String) (o1 o2 : FetchOutcome)
    (st : ChatState) (h1 : m1 ≠ "") (h2 : m2 ≠ "")
    (h0 : loaderCount st = 0) :
    (∀ v, sendMessageTrace (some m1) v o1 =
        sendPre (some m1) m1 ++ sendPost o1)
    ∧ (∀ v, sendMessageTrace (some m2) v o2 =
        sendPre (some m2) m2 ++ sendPost o2)
    ∧ loaderCount (runTrace (sendPre (some m2) m2)
        (runTrace (sendPre (some m1) m1) st)) = 1
    ∧ loaderCount (runTrace (sendPost o1) (runTrace (sendPre (some m2) m2)
        (runTrace (sendPre (some m1) m1) st))) = 0
    ∧ hideLoading (runTrace (sendPost o1) (runTrace (sendPre (some m2) m2)
        (runTrace (sendPre (some m1) m1) st))) =
      runTrace (sendPost o1) (runTrace (sendPre (some m2) m2)
        (runTrace (sendPre (some m1) m1) st))
    ∧ loaderCount (runTrace (sendPost o2) (runTrace (sendPost o1)
        (runTrace (sendPre (some m2) m2)
          (runTrace (sendPre (some m1) m1) st)))) = 0 := by
  have ha : loaderCount (runTrace (sendPre (some m1) m1) st) = 1 :=
    loaderCount_runTrace_sendPre _ _ st (by omega)
  have hb : loaderCount (runTrace (sendPre (some m2) m2)
      (runTrace (sendPre (some m1) m1) st)) = 1 :=
    loaderCount_runTrace_sendPre _ _ _ (by omega)
  have hc : loaderCount (runTrace (sendPost o1)
      (runTrace (sendPre (some m2) m2)
        (runTrace (sendPre (some m1) m1) st))) = 0 :=
    loaderCount_runTrace_sendPost o1 _ (by omega)
  refine ⟨?_, ?_, hb, hc, hideLoading_of_zero _ hc,
    loaderCount_runTrace_sendPost o2 _ (by omega)⟩
  · intro v
    unfold sendMessageTrace
    simp [resolveMessage, h1]
  · intro v
    unfold sendMessageTrace
    simp [resolveMessage, h2]

/-- Witness for C10 at two concrete overlapping sends. -/
theorem c10_overlapping_sends_witness :
    (∀ v, sendMessageTrace (some "a") v (FetchOutcome.fetchFail "x") =
        sendPre (some "a") "a" ++ sendPost (FetchOutcome.fetchFail "x"))
    ∧ (∀ v, sendMessageTrace (some "b") v
          (FetchOutcome.ok ⟨none, none⟩) =
        sendPre (some "b") "b" ++ sendPost (FetchOutcome.ok ⟨none, none⟩))
    ∧ loaderCount (runTrace (sendPre (some "b") "b")
        (runTrace (sendPre (some "a") "a") ⟨[], ""⟩)) = 1
    ∧ loaderCount (runTrace (sendPost (FetchOutcome.fetchFail "x"))
        (runTrace (sendPre (some "b") "b")
          (runTrace (sendPre (some "a") "a") ⟨[], ""⟩))) = 0
    ∧ hideLoading (runTrace (sendPost (FetchOutcome.fetchFail "x"))
        (runTrace (sendPre (some "b") "b")
          (runTrace (sendPre (some "a") "a") ⟨[], ""⟩))) =
      runTrace (sendPost (FetchOutcome.fetchFail "x"))
        (runTrace (sendPre (some "b") "b")
          (runTrace (sendPre (some "a") "a") ⟨[], ""⟩))
    ∧ loaderCount (runTrace (sendPost (FetchOutcome.ok ⟨none, none⟩))
        (runTrace (sendPost (FetchOutcome.fetchFail "x"))
          (runTrace (sendPre (some "b") "b")
            (runTrace (sendPre (some "a") "a") ⟨[], ""⟩)))) = 0 :=
  c10_overlapping_sends "a" "b" (FetchOutcome.fetchFail "x")
    (FetchOutcome.ok ⟨none, none⟩) ⟨[], ""⟩ (by decide) (by decide)
    (by decide)

end Chatbot
